import Mathlib

/-!
Verification of the SBOM security-agent deployment scripts: a shallow
embedding of the conflict-resolution, cleanup, endpoint-normalization and
environment-file logic, with theorems about the claimed properties.
-/

set_option maxHeartbeats 1000000

namespace SbomDeploy

/-! ## Basic string utilities mirroring the Python string methods used -/

/-- Boolean test of whether the list `p` is an initial segment of `s`
(mirrors the Python method that tests a leading substring). -/
def swB : List Char → List Char → Bool
  | [], _ => true
  | _ :: _, [] => false
  | p :: ps, s :: ss => p == s && swB ps ss

/-- Boolean test of whether the list `p` is a final segment of `s`
(mirrors the Python method that tests a trailing substring). -/
def ewB (p s : List Char) : Bool := swB p.reverse s.reverse

/-- Boolean substring test, mirroring the Python expression `needle in hay`. -/
def subB (n : List Char) : List Char → Bool
  | [] => swB n []
  | c :: hs => swB n (c :: hs) || subB n hs

/-- ASCII lower-casing of one character, as Python lower-cases the ASCII
range of a string. -/
def pyLowerChar (c : Char) : Char :=
  if h : 65 ≤ c.toNat ∧ c.toNat ≤ 90 then
    ⟨⟨⟨c.toNat + 32, by omega⟩⟩, Or.inl (by
      show c.toNat + 32 < 55296
      omega)⟩
  else c

/-- Python string lower-casing restricted to ASCII input. -/
def pyLower (s : String) : String := ⟨s.data.map pyLowerChar⟩

/-- The ASCII whitespace characters stripped by the Python strip method. -/
def isPyWs (c : Char) : Bool :=
  c == ' ' || c == '\t' || c == '\n' || c == '\r' || c == '\x0b' || c == '\x0c'

/-- Python whitespace stripping from both ends of a string. -/
def pyStrip (s : String) : String :=
  ⟨((s.data.dropWhile isPyWs).reverse.dropWhile isPyWs).reverse⟩

/-! ## Clock readings and the timestamp format

`generate_unique_agent_name` in `working_deployment.py` (also inlined in
`simple_enhanced_deployment.py` and repeated in `test_conflict_resolution.py`)
formats the current local civil time with the pattern
`%Y%m%d_%H%M%S`.  The embedding takes the clock reading — the civil
year/month/day/hour/minute/second tuple consumed by that format — as an
explicit argument. -/

/-- A second-resolution civil clock reading, the input consumed by the
Python timestamp format. -/
structure DateTime where
  year : Nat
  month : Nat
  day : Nat
  hour : Nat
  minute : Nat
  second : Nat
deriving DecidableEq

/-- Field ranges of a genuine clock reading (four-digit year, calendar
month/day, 24-hour time). -/
def DateTime.Valid (d : DateTime) : Prop :=
  1000 ≤ d.year ∧ d.year ≤ 9999 ∧ 1 ≤ d.month ∧ d.month ≤ 12 ∧
  1 ≤ d.day ∧ d.day ≤ 31 ∧ d.hour ≤ 23 ∧ d.minute ≤ 59 ∧ d.second ≤ 59

instance (d : DateTime) : Decidable d.Valid := by
  unfold DateTime.Valid; infer_instance

/-- Days elapsed since the proleptic-Gregorian era origin for a civil date
(the standard civil-from-days inverse), used to linearize clock readings
to a seconds scale so that being at least one second apart is expressible. -/
def daysFromCivil (y m d : Nat) : Nat :=
  let yy := if m ≤ 2 then y - 1 else y
  let era := yy / 400
  let yoe := yy % 400
  let mp := (m + 9) % 12
  let doy := (153 * mp + 2) / 5 + (d - 1)
  let doe := yoe * 365 + yoe / 4 - yoe / 100 + doy
  era * 146097 + doe

/-- Linearization of a civil clock reading to elapsed seconds; two readings
are at least one second apart exactly when their linearizations differ by
at least one. -/
def DateTime.toSeconds (d : DateTime) : Nat :=
  ((daysFromCivil d.year d.month d.day * 24 + d.hour) * 60 + d.minute) * 60 + d.second

/-- The ASCII digit character for `n < 10`. -/
def digitChar (n : Nat) : Char := Char.ofNat (48 + n)

/-- Two-digit zero-padded decimal rendering, as the format directives
for month, day, hour, minute and second produce. -/
def pad2Chars (n : Nat) : List Char := [digitChar (n / 10), digitChar (n % 10)]

/-- Four-digit zero-padded decimal rendering, as the year directive
produces for four-digit years. -/
def pad4Chars (n : Nat) : List Char := pad2Chars (n / 100) ++ pad2Chars (n % 100)

/-- The `%Y%m%d_%H%M%S` timestamp of a clock reading. -/
def strftimeYmdHMS (d : DateTime) : String :=
  ⟨pad4Chars d.year ++ pad2Chars d.month ++ pad2Chars d.day ++ ['_'] ++
   pad2Chars d.hour ++ pad2Chars d.minute ++ pad2Chars d.second⟩

/-- `generate_unique_agent_name` from `working_deployment.py` lines 19-22:
base name, underscore, mode, underscore, timestamp of the current clock
reading. -/
def generate_unique_agent_name (base_name mode : String) (now : DateTime) : String :=
  base_name ++ "_" ++ mode ++ "_" ++ strftimeYmdHMS now

/-- The agent-name selection of `deploy_with_conflict_resolution` in
`working_deployment.py` lines 28-37: auto-update and force-recreate modes
rename unconditionally (no discovery is consulted), standard mode keeps
the base name. -/
def working_agent_name (base_agent_name : String) (auto_update force_recreate : Bool)
    (now : DateTime) : String :=
  if auto_update then generate_unique_agent_name base_agent_name "update" now
  else if force_recreate then generate_unique_agent_name base_agent_name "recreate" now
  else base_agent_name

/-! ## Conflict resolution in `enhanced_deployment.py`

`DeploymentManager.handle_existing_artifacts` decides whether deployment
proceeds and under which agent name, given the discovered artifacts, the
policy flags and — in standard mode — the interactive answers.  Each
interactive turn supplies the menu choice and, for choice 4, the new name
entered.  The embedding returns `some finalName` when the function returns
True and `none` when the user cancels (the source loops forever on an
exhausted input stream, which the embedding also maps to `none`). -/

/-- The interactive loop of `handle_existing_artifacts` lines 108-132. -/
def interactiveConflictChoice (n : String) : List (String × String) → Option String
  | [] => none
  | (choice, newName) :: rest =>
    let c := pyStrip choice
    if c = "1" then some n
    else if c = "2" then some n
    else if c = "3" then none
    else if c = "4" then
      (if pyStrip newName ≠ "" then some (pyStrip newName)
       else interactiveConflictChoice n rest)
    else interactiveConflictChoice n rest

/-- `handle_existing_artifacts` from `enhanced_deployment.py` lines 81-132,
as the resulting deployment name (`none` = cancelled). -/
def handle_existing_artifacts (existing_artifacts : List String)
    (auto_update force_recreate : Bool) (agent_name : String)
    (answers : List (String × String)) : Option String :=
  if existing_artifacts.isEmpty then some agent_name
  else if force_recreate then some agent_name
  else if auto_update then some agent_name
  else interactiveConflictChoice agent_name answers

/-! ## Derived resource names

`get_agent_info.py` line 53 and `enhanced_deployment.py` lines 43 and 69
derive the container-registry and compute-function names as
`"agentcore-runtime-" + agent_name.lower().replace('_', '-')`, while
line 56 derives the execution-role name as
`"AgentCoreRuntimeRole-" + agent_name` with no normalization. -/

/-- The name normalization `agent_name.lower().replace('_', '-')`. -/
def normalize_agent_name (s : String) : String :=
  ⟨(pyLower s).data.map (fun c => if c = '_' then '-' else c)⟩

/-- The resource kinds whose expected names `check_existing_deployment`
computes from the deployment name. -/
inductive ResourceKind
  | containerRegistry
  | computeFunction
  | identityRole
deriving DecidableEq

/-- The expected resource name for a deployment name and kind, from
`enhanced_deployment.py` lines 43, 56 and 69. -/
def derive_resource_name (agent_name : String) : ResourceKind → String
  | .containerRegistry => "agentcore-runtime-" ++ normalize_agent_name agent_name
  | .computeFunction => "agentcore-runtime-" ++ normalize_agent_name agent_name
  | .identityRole => "AgentCoreRuntimeRole-" ++ agent_name

/-! ## Cleanup of discovered resources (`cleanup_deployment.py`)

A resource entry carries its displayed type and name, whether it is an
identity role needing policy cleanup before deletion, and the provider
behaviour for the calls the loop can make: whether the policy cleanup
sub-calls succeed and whether the terminal delete call succeeds.  The
embedding additionally records the provider calls issued, as a trace of
events tagged with the position of the resource in the input list. -/

/-- One entry of the resource list built by `list_agentcore_resources`. -/
structure CleanupResource where
  rtype : String
  rname : String
  requiresPolicyCleanup : Bool
  policyCleanupSucceeds : Bool
  deleteSucceeds : Bool
deriving DecidableEq

/-- A provider call issued by the cleanup loop: the policy cleanup of
`cleanup_iam_role_policies` (with its outcome; its failures are caught
inside that helper) or the terminal delete call, tagged by the index of
the resource in the list. -/
inductive CleanupEvent
  | policyCleanup (idx : Nat) (ok : Bool)
  | deleteCall (idx : Nat)
deriving DecidableEq

/-- The outcome of `cleanup_resources`: the success and error counters and
the trace of provider calls issued. -/
structure CleanupReport where
  successCount : Nat
  errorCount : Nat
  events : List CleanupEvent
deriving DecidableEq

/-- One iteration of the loop in `cleanup_resources` lines 151-179:
in dry-run mode only a message is printed (no provider call, cannot fail);
otherwise the policy cleanup runs first when required (its own failures
are swallowed with a warning), then the delete call is attempted, and the
iteration counts as success or error according to the delete outcome. -/
def cleanupStep (idx : Nat) (r : CleanupResource) (dry_run : Bool) :
    Nat × Nat × List CleanupEvent :=
  if dry_run then (1, 0, [])
  else
    ((if r.deleteSucceeds then 1 else 0),
     (if r.deleteSucceeds then 0 else 1),
     (if r.requiresPolicyCleanup then
        [CleanupEvent.policyCleanup idx r.policyCleanupSucceeds] else []) ++
       [CleanupEvent.deleteCall idx])

/-- The loop of `cleanup_resources`, accumulating counters and trace. -/
def cleanupGo (idx : Nat) : List CleanupResource → Bool → CleanupReport
  | [], _ => ⟨0, 0, []⟩
  | r :: rest, dry_run =>
    let s := cleanupStep idx r dry_run
    let rep := cleanupGo (idx + 1) rest dry_run
    ⟨s.1 + rep.successCount, s.2.1 + rep.errorCount, s.2.2 ++ rep.events⟩

/-- `cleanup_resources` from `cleanup_deployment.py` lines 137-187, as the
report it accumulates (the empty list takes the early return with empty
counters). -/
def cleanup_resources (resources : List CleanupResource) (dry_run : Bool) : CleanupReport :=
  cleanupGo 0 resources dry_run

/-- The boolean value `cleanup_resources` returns: `error_count == 0`
(the early return for an empty list also yields True). -/
def cleanup_resources_ret (resources : List CleanupResource) (dry_run : Bool) : Bool :=
  (cleanup_resources resources dry_run).errorCount == 0

/-! ## Endpoint URL validation (`get_agent_info.py` lines 191-220,
duplicated in `test_deployment.py` lines 17-45)

The Python function returns a pair `(url, None)` on success and
`(None, message)` on failure; the embedding uses `Except message url`.
The URL parse it performs is embedded for inputs that begin with an
`http://` or `https://` scheme — which the function guarantees before
parsing — with the host part ending at the first slash, question mark or
hash, and the path running from that slash (if any) up to a question mark
or hash, exactly as the Python parser splits such inputs. -/

/-- Character class ending the host part of a parsed URL. -/
def netlocEnd (c : Char) : Bool := c == '/' || c == '?' || c == '#'

/-- The host part of a URL given the characters after the scheme. -/
def urlNetloc (rest : List Char) : List Char :=
  rest.takeWhile (fun c => !netlocEnd c)

/-- The path part of a URL given the characters after the scheme. -/
def urlPath (rest : List Char) : List Char :=
  let rem := rest.dropWhile (fun c => !netlocEnd c)
  match rem with
  | '/' :: _ => rem.takeWhile (fun c => !(c == '?' || c == '#'))
  | _ => []

/-- The characters after the leading scheme of a URL known to start with
`http://` or `https://`. -/
def afterScheme (s : List Char) : List Char :=
  if swB "https://".data s then s.drop 8 else s.drop 7

/-- `validate_endpoint_url`: reject the empty string, strip whitespace,
prepend `https://` when no scheme is present, reject a missing host, and
append the invocation path exactly as the source does — `/invocations`
when the parsed path is non-empty and does not end with a slash, and the
bare string `invocations` otherwise. -/
def validate_endpoint_url (url : String) : Except String String :=
  if url = "" then .error "URL cannot be empty"
  else
    let u1 := pyStrip url
    let u2 := if swB "http://".data u1.data || swB "https://".data u1.data
              then u1 else "https://" ++ u1
    let rest := afterScheme u2.data
    let netloc := urlNetloc rest
    let path := urlPath rest
    if netloc = [] then .error "Invalid URL format"
    else if ewB "/invocations".data path then .ok u2
    else if path ≠ [] && !ewB "/".data path then .ok (u2 ++ "/invocations")
    else .ok (u2 ++ "invocations")

/-! ## The persisted deployment metadata document (`.env`)

The document is modelled as its list of lines.  `save_agent_info_to_env`
(`get_agent_info.py` lines 333-371) first removes every line that starts
with one of its recognized keys and then appends one line per value;
`working_deployment.py` lines 108-117 and `simple_enhanced_deployment.py`
lines 195-202 open the file in append mode and add a comment line plus a
key line without removing anything. -/

/-- The keys whose prior lines `save_agent_info_to_env` removes. -/
def envKeys7 : List String :=
  ["AGENT_ENDPOINT=", "AGENT_ID=", "AGENT_NAME=", "AWS_REGION=",
   "COGNITO_CLIENT_ID=", "COGNITO_POOL_ID=", "COGNITO_DISCOVERY_URL="]

/-- The agent fields written by `save_agent_info_to_env`. -/
structure AgentInfo where
  endpoint_url : String
  agent_id : String
  agent_name : String
  region : String

/-- The identity-pool fields optionally written by `save_agent_info_to_env`. -/
structure CognitoInfo where
  client_id : String
  pool_id : String
  discovery_url : String

/-- `save_agent_info_to_env`: filter out lines starting with a recognized
key, then append the fresh values (and the pool values when present). -/
def save_agent_info_to_env (env : List String) (a : AgentInfo)
    (c : Option CognitoInfo) : List String :=
  (env.filter (fun line => !(envKeys7.any (fun k => swB k.data line.data)))) ++
    (["AGENT_ENDPOINT=" ++ a.endpoint_url, "AGENT_ID=" ++ a.agent_id,
      "AGENT_NAME=" ++ a.agent_name, "AWS_REGION=" ++ a.region] ++
     (match c with
      | some ci => ["COGNITO_CLIENT_ID=" ++ ci.client_id,
                    "COGNITO_POOL_ID=" ++ ci.pool_id,
                    "COGNITO_DISCOVERY_URL=" ++ ci.discovery_url]
      | none => []))

/-- The append-mode write of `working_deployment.py` lines 111-113:
a blank line, a comment line and the deployed-name line are appended. -/
def working_save_deployed_name (env : List String) (agent_name : String) : List String :=
  env ++ ["", "# Auto-generated agent name from conflict resolution",
          "DEPLOYED_AGENT_NAME=" ++ agent_name]

/-- The append-mode write of `simple_enhanced_deployment.py` lines 197-199:
a blank line, a comment line and an agent-name line are appended. -/
def simple_save_agent_name (env : List String) (unique_agent_name : String) : List String :=
  env ++ ["", "# Auto-generated agent name from conflict resolution",
          "AGENT_NAME=" ++ unique_agent_name]

/-- Number of lines of the document that start with the given key. -/
def countKeyLines (env : List String) (key : String) : Nat :=
  (env.filter (fun l => swB key.data l.data)).length

/-! ## The singleton OAuth provider setup

Three variants exist: `deployment_config.py` lines 19-94,
`DeploymentManager.setup_github_oauth_provider` in `enhanced_deployment.py`
lines 136-204, and the module-level copy in
`simple_enhanced_deployment.py` lines 23-81.  Inputs of the embedding:
whether both credential variables are set, the result of listing existing
providers (`none` when the list call raises, in which case the source
warns and proceeds to create), the interactive answer used by the enhanced
variant, the policy flags, and the create outcome (`none` = created,
`some msg` = the create call raised with message `msg`). -/

/-- The affirmative answers accepted by the interactive prompts. -/
def yesAnswers : List String := ["y", "yes", "1", "true"]

/-- Whether a listed provider set contains the fixed provider name. -/
def providerListed (listResult : Option (List String)) : Bool :=
  match listResult with
  | some provs => provs.contains "github-provider"
  | none => false

/-- The shared create-error handler of `deployment_config.py` lines 84-94:
an error message containing `already exists` or `duplicate`
(case-insensitively) is treated as success. -/
def dcCreateErrOk (msg : String) : Bool :=
  subB "already exists".data (pyLower msg).data ||
    subB "duplicate".data (pyLower msg).data

/-- The create-error handler of `enhanced_deployment.py` lines 195-204 and
`simple_enhanced_deployment.py` lines 72-81: only `already exists`
(case-insensitively) is treated as success. -/
def enhCreateErrOk (msg : String) : Bool :=
  subB "already exists".data (pyLower msg).data

/-- `setup_github_oauth_provider` of `deployment_config.py`. -/
def dc_setup_github_oauth_provider (haveCreds : Bool)
    (listResult : Option (List String)) (createOutcome : Option String) : Bool :=
  if !haveCreds then false
  else if providerListed listResult then true
  else match createOutcome with
    | none => true
    | some msg => dcCreateErrOk msg

/-- `DeploymentManager.setup_github_oauth_provider` of
`enhanced_deployment.py`: when the provider is already listed, auto-update
or force-recreate mode reuses it, and standard mode asks; otherwise the
create path runs with its error handler. -/
def enh_setup_github_oauth_provider (haveCreds : Bool)
    (listResult : Option (List String)) (auto_update force_recreate : Bool)
    (answer : String) (createOutcome : Option String) : Bool :=
  if !haveCreds then false
  else if providerListed listResult then
    (if auto_update || force_recreate then true
     else yesAnswers.contains (pyLower (pyStrip answer)))
  else match createOutcome with
    | none => true
    | some msg => enhCreateErrOk msg

/-- `setup_github_oauth_provider` of `simple_enhanced_deployment.py`:
a listed provider is reused unconditionally; otherwise the create path
runs with its error handler. -/
def simple_setup_github_oauth_provider (haveCreds : Bool)
    (listResult : Option (List String)) (createOutcome : Option String) : Bool :=
  if !haveCreds then false
  else if providerListed listResult then true
  else match createOutcome with
    | none => true
    | some msg => enhCreateErrOk msg

/-! ## CLI exit codes

Each entry point wraps its body in a handler for keyboard interrupts and
for unexpected exceptions.  The embedding takes the fate of the body as an
input together with the data the non-exceptional flow branches on, and
returns the process exit code. -/

/-- How the body of a guarded entry point ends. -/
inductive PyRun
  | completes
  | keyboardInterrupt
  | raisesError
deriving DecidableEq

/-- `main` of `cleanup_deployment.py` lines 250-293: a keyboard interrupt
or an unexpected error exits 1; otherwise the run ends in `sys.exit(0)` —
both on the cancelled confirmation (line 273) and at line 285 regardless
of whether `cleanup_resources` reported failures. -/
def cleanup_deployment_main_exit (run : PyRun) (execute : Bool)
    (resources : List CleanupResource) (confirm : String) : Nat :=
  match run with
  | .keyboardInterrupt => 1
  | .raisesError => 1
  | .completes =>
    if resources.isEmpty then 0
    else if execute then
      if pyLower (pyStrip confirm) ≠ "yes" then 0
      else
        let _ := cleanup_resources resources false
        0
    else
      let _ := cleanup_resources resources true
      0

/-- `main` of `get_agent_info.py` lines 432-515: the endpoint-only and
save-env modes exit 0 on success and 1 on failure; the interactive mode
exits 0 on completion and also 0 on a keyboard interrupt (line 511),
and 1 only on an unexpected error. -/
def get_agent_info_main_exit (endpoint_only save_env : Bool)
    (found saved : Bool) (interactiveRun : PyRun) : Nat :=
  if endpoint_only then (if found then 0 else 1)
  else if save_env then (if found then (if saved then 0 else 1) else 1)
  else match interactiveRun with
    | .completes => 0
    | .keyboardInterrupt => 0
    | .raisesError => 1

/-- `main` of `enhanced_deployment.py` lines 375-446: conflicting flags
exit 1; otherwise exit 0 when the deployment succeeded and 1 on failure,
keyboard interrupt or unexpected error. -/
def enhanced_deployment_main_exit (bothFlags : Bool) (run : PyRun)
    (success : Bool) : Nat :=
  if bothFlags then 1
  else match run with
    | .completes => if success then 0 else 1
    | .keyboardInterrupt => 1
    | .raisesError => 1

/-! ## Helper lemmas -/

/-- Two strings with the same character data coincide. -/
theorem string_data_inj {a b : String} (h : a.data = b.data) : a = b := by
  cases a
  cases b
  simp_all

/-- A list is a leading segment of itself followed by anything. -/
theorem swB_self_append (l m : List Char) : swB l (l ++ m) = true := by
  induction l with
  | nil => rfl
  | cons c cs ih => simp [swB, ih]

/-- If neither of two lists leads the other, then the first does not lead
the second followed by anything. -/
theorem swB_ne_append (a : List Char) : ∀ b x : List Char,
    swB a b = false → swB b a = false → swB a (b ++ x) = false := by
  induction a with
  | nil => intro b x h1 _; cases b <;> simp_all [swB]
  | cons p ps ih =>
    intro b x h1 h2
    cases b with
    | nil => simp [swB] at h2
    | cons q qs =>
      simp only [swB, List.cons_append, Bool.and_eq_false_imp] at h1 h2 ⊢
      intro hpq
      have hqp : (q == p) = true := by
        have := beq_iff_eq.mp hpq
        simp [this]
      exact ih qs x (h1 hpq) (h2 hqp)

/-- Distinct digits below ten render to distinct digit characters. -/
theorem digitChar_inj : ∀ a < 10, ∀ b < 10, digitChar a = digitChar b → a = b := by
  decide

/-- The two-digit rendering is injective below one hundred. -/
theorem pad2Chars_inj {a b : Nat} (ha : a ≤ 99) (hb : b ≤ 99)
    (h : pad2Chars a = pad2Chars b) : a = b := by
  simp only [pad2Chars, List.cons.injEq, and_true] at h
  obtain ⟨h1, h2⟩ := h
  have e1 := digitChar_inj (a / 10) (by omega) (b / 10) (by omega) h1
  have e2 := digitChar_inj (a % 10) (by omega) (b % 10) (by omega) h2
  omega

/-- The four-digit rendering is injective below ten thousand. -/
theorem pad4Chars_inj {a b : Nat} (ha : a ≤ 9999) (hb : b ≤ 9999)
    (h : pad4Chars a = pad4Chars b) : a = b := by
  simp only [pad4Chars, pad2Chars, List.cons_append, List.nil_append,
    List.cons.injEq, and_true] at h
  obtain ⟨h1, h2, h3, h4⟩ := h
  have e1 := digitChar_inj (a / 100 / 10) (by omega) (b / 100 / 10) (by omega) h1
  have e2 := digitChar_inj (a / 100 % 10) (by omega) (b / 100 % 10) (by omega) h2
  have e3 := digitChar_inj (a % 100 / 10) (by omega) (b % 100 / 10) (by omega) h3
  have e4 := digitChar_inj (a % 100 % 10) (by omega) (b % 100 % 10) (by omega) h4
  omega

/-- On valid clock readings the timestamp format is injective. -/
theorem strftimeYmdHMS_inj {d1 d2 : DateTime} (h1 : d1.Valid) (h2 : d2.Valid)
    (h : strftimeYmdHMS d1 = strftimeYmdHMS d2) : d1 = d2 := by
  obtain ⟨y1, mo1, dy1, hh1, mi1, s1⟩ := d1
  obtain ⟨y2, mo2, dy2, hh2, mi2, s2⟩ := d2
  simp only [DateTime.Valid] at h1 h2
  obtain ⟨hy1a, hy1b, hmo1a, hmo1b, hdy1a, hdy1b, hhh1, hmi1, hs1⟩ := h1
  obtain ⟨hy2a, hy2b, hmo2a, hmo2b, hdy2a, hdy2b, hhh2, hmi2, hs2⟩ := h2
  have hd := congrArg String.data h
  simp only [strftimeYmdHMS, pad4Chars, pad2Chars, List.cons_append,
    List.nil_append, List.cons.injEq, and_true] at hd
  obtain ⟨e1, e2, e3, e4, e5, e6, e7, e8, _, e9, e10, e11, e12, e13, e14⟩ := hd
  have q1 := digitChar_inj _ (by omega) _ (by omega) e1
  have q2 := digitChar_inj _ (by omega) _ (by omega) e2
  have q3 := digitChar_inj _ (by omega) _ (by omega) e3
  have q4 := digitChar_inj _ (by omega) _ (by omega) e4
  have q5 := digitChar_inj _ (by omega) _ (by omega) e5
  have q6 := digitChar_inj _ (by omega) _ (by omega) e6
  have q7 := digitChar_inj _ (by omega) _ (by omega) e7
  have q8 := digitChar_inj _ (by omega) _ (by omega) e8
  have q9 := digitChar_inj _ (by omega) _ (by omega) e9
  have q10 := digitChar_inj _ (by omega) _ (by omega) e10
  have q11 := digitChar_inj _ (by omega) _ (by omega) e11
  have q12 := digitChar_inj _ (by omega) _ (by omega) e12
  have q13 := digitChar_inj _ (by omega) _ (by omega) e13
  have q14 := digitChar_inj _ (by omega) _ (by omega) e14
  simp only [DateTime.mk.injEq]
  refine ⟨by omega, by omega, by omega, by omega, by omega, by omega⟩

/-- A generated unique name is strictly longer than, hence different from,
its base name. -/
theorem generate_unique_agent_name_ne (base_name mode : String) (d : DateTime) :
    generate_unique_agent_name base_name mode d ≠ base_name := by
  intro h
  have hl := congrArg String.length h
  have hts : (strftimeYmdHMS d).length = 15 := rfl
  simp only [generate_unique_agent_name, String.length_append, hts] at hl
  have hu : ("_" : String).length = 1 := rfl
  omega

/-- Generated unique names for distinct valid clock readings are distinct. -/
theorem generate_unique_agent_name_inj {base_name mode : String} {d1 d2 : DateTime}
    (h1 : d1.Valid) (h2 : d2.Valid) (hne : d1 ≠ d2) :
    generate_unique_agent_name base_name mode d1 ≠
      generate_unique_agent_name base_name mode d2 := by
  intro h
  apply hne
  apply strftimeYmdHMS_inj h1 h2
  have hd := congrArg String.data h
  simp only [generate_unique_agent_name, String.data_append, List.append_assoc] at hd
  have hd1 := List.append_cancel_left hd
  have hd2 := List.append_cancel_left hd1
  have hd3 := List.append_cancel_left hd2
  have hd4 := List.append_cancel_left hd3
  exact string_data_inj hd4

/-- In dry-run mode the cleanup loop counts every resource as a success,
reports no errors and issues no provider call. -/
theorem cleanupGo_dry (idx : Nat) (rs : List CleanupResource) :
    cleanupGo idx rs true = ⟨rs.length, 0, []⟩ := by
  induction rs generalizing idx with
  | nil => rfl
  | cons r rest ih =>
    simp [cleanupGo, cleanupStep, ih, List.length_cons, Nat.add_comm]

/-- In execute mode the success counter is the number of resources whose
delete call succeeds. -/
theorem cleanupGo_exec_success (idx : Nat) (rs : List CleanupResource) :
    (cleanupGo idx rs false).successCount =
      (rs.filter (fun r => r.deleteSucceeds)).length := by
  induction rs generalizing idx with
  | nil => rfl
  | cons r rest ih =>
    cases hds : r.deleteSucceeds <;>
      simp [cleanupGo, cleanupStep, hds, ih, List.filter_cons, Nat.add_comm]

/-- In execute mode the error counter is the number of resources whose
delete call fails, independently of any policy-cleanup failures. -/
theorem cleanupGo_exec_error (idx : Nat) (rs : List CleanupResource) :
    (cleanupGo idx rs false).errorCount =
      (rs.filter (fun r => !r.deleteSucceeds)).length := by
  induction rs generalizing idx with
  | nil => rfl
  | cons r rest ih =>
    cases hds : r.deleteSucceeds <;>
      simp [cleanupGo, cleanupStep, hds, ih, List.filter_cons, Nat.add_comm]

/-- For every resource that requires policy cleanup, the execute-mode
trace contains its policy-cleanup call followed (later) by its delete
call. -/
theorem cleanupGo_policy_then_delete (rs : List CleanupResource) :
    ∀ idx i, (hi : i < rs.length) →
    (rs.get ⟨i, hi⟩).requiresPolicyCleanup = true →
    ([CleanupEvent.policyCleanup (idx + i) ((rs.get ⟨i, hi⟩).policyCleanupSucceeds),
      CleanupEvent.deleteCall (idx + i)]).Sublist (cleanupGo idx rs false).events := by
  induction rs with
  | nil =>
    intro idx i hi
    simp at hi
  | cons r rest ih =>
    intro idx i hi hreq
    match i with
    | 0 =>
      simp only [List.get] at hreq ⊢
      simp only [Nat.add_zero]
      have hev : (cleanupGo idx (r :: rest) false).events =
          [CleanupEvent.policyCleanup idx r.policyCleanupSucceeds,
           CleanupEvent.deleteCall idx] ++ (cleanupGo (idx + 1) rest false).events := by
        simp [cleanupGo, cleanupStep, hreq]
      rw [hev]
      exact List.sublist_append_left _ _
    | i + 1 =>
      simp only [List.get] at hreq ⊢
      have hi' : i < rest.length := by
        simp only [List.length_cons] at hi
        omega
      have hidx : idx + (i + 1) = (idx + 1) + i := by omega
      rw [hidx]
      have hsub := ih (idx + 1) i hi' hreq
      have hev : (cleanupGo idx (r :: rest) false).events =
          (cleanupStep idx r false).2.2 ++ (cleanupGo (idx + 1) rest false).events := rfl
      rw [hev]
      exact hsub.trans (List.sublist_append_right _ _)

/-- Key-line counting distributes over document concatenation. -/
theorem countKeyLines_append (e1 e2 : List String) (k : String) :
    countKeyLines (e1 ++ e2) k = countKeyLines e1 k + countKeyLines e2 k := by
  simp [countKeyLines, List.filter_append]

/-- After the filtering pass of `save_agent_info_to_env`, no line starting
with a recognized key remains. -/
theorem countKeyLines_filtered_zero (env : List String) (k : String)
    (hk : k ∈ envKeys7) :
    countKeyLines
      (env.filter (fun line => !(envKeys7.any (fun p => swB p.data line.data)))) k = 0 := by
  simp only [countKeyLines, List.length_eq_zero, List.filter_filter]
  apply List.filter_eq_nil_iff.mpr
  intro l _
  cases hsw : swB k.data l.data with
  | false => simp [hsw]
  | true =>
    have hany : (envKeys7.any fun p => swB p.data l.data) = true :=
      List.any_eq_true.mpr ⟨k, hk, hsw⟩
    simp [hsw, hany]

/-- A keyed batch of lines whose keys all differ from `k` (in the strong
sense that neither leads the other) contains no line starting with `k`. -/
theorem countKeyLines_keyed_zero (k : String) (ps : List (String × String))
    (h : ∀ p ∈ ps, swB k.data p.1.data = false ∧ swB p.1.data k.data = false) :
    countKeyLines (ps.map (fun p => p.1 ++ p.2)) k = 0 := by
  induction ps with
  | nil => rfl
  | cons p rest ih =>
    have hp := h p (by simp)
    have hb : swB k.data (p.1 ++ p.2).data = false := by
      rw [String.data_append]
      exact swB_ne_append _ _ _ hp.1 hp.2
    simp only [List.map_cons, countKeyLines, List.filter_cons, hb]
    exact ih (fun q hq => h q (by simp [hq]))

/-- A keyed batch of lines with duplicate-free keys, each key either equal
to `k` or incomparable with it, contains at most one line starting
with `k`. -/
theorem countKeyLines_keyed_le_one (k : String) (ps : List (String × String))
    (hnd : (ps.map Prod.fst).Nodup)
    (h : ∀ p ∈ ps, p.1 = k ∨ (swB k.data p.1.data = false ∧ swB p.1.data k.data = false)) :
    countKeyLines (ps.map (fun p => p.1 ++ p.2)) k ≤ 1 := by
  induction ps with
  | nil => simp [countKeyLines]
  | cons p rest ih =>
    simp only [List.map_cons, List.nodup_cons] at hnd
    rcases h p (by simp) with hk | hne
    · have hb : swB k.data (p.1.data ++ p.2.data) = true := by
        rw [← hk]
        exact swB_self_append _ _
      have hz : countKeyLines (rest.map (fun q => q.1 ++ q.2)) k = 0 := by
        apply countKeyLines_keyed_zero
        intro q hq
        rcases h q (by simp [hq]) with hqk | hq2
        · exfalso
          apply hnd.1
          rw [hk, ← hqk]
          exact List.mem_map.mpr ⟨q, hq, rfl⟩
        · exact hq2
      have hstep : countKeyLines ((p :: rest).map (fun q => q.1 ++ q.2)) k =
          countKeyLines (rest.map (fun q => q.1 ++ q.2)) k + 1 := by
        simp [countKeyLines, String.data_append, hb]
      rw [hstep, hz]
    · have hb : swB k.data (p.1 ++ p.2).data = false := by
        rw [String.data_append]
        exact swB_ne_append _ _ _ hne.1 hne.2
      simp only [List.map_cons, countKeyLines, List.filter_cons, hb]
      have := ih hnd.2 (fun q hq => h q (by simp [hq]))
      simpa [countKeyLines] using this

/-- Lower-casing an upper-case ASCII letter shifts its code by 32. -/
theorem pyLowerChar_toNat_of (c : Char) (h : 65 ≤ c.toNat ∧ c.toNat ≤ 90) :
    (pyLowerChar c).toNat = c.toNat + 32 := by
  simp [pyLowerChar, h]
  rfl

/-- Lower-casing leaves a character outside the upper-case ASCII range
unchanged. -/
theorem pyLowerChar_id_of (c : Char) (h : ¬(65 ≤ c.toNat ∧ c.toNat ≤ 90)) :
    pyLowerChar c = c := by
  simp [pyLowerChar, h]

/-- Character lower-casing is idempotent. -/
theorem pyLowerChar_idem (c : Char) : pyLowerChar (pyLowerChar c) = pyLowerChar c := by
  by_cases h : 65 ≤ c.toNat ∧ c.toNat ≤ 90
  · have ht := pyLowerChar_toNat_of c h
    apply pyLowerChar_id_of
    rw [ht]
    omega
  · rw [pyLowerChar_id_of c h]
    exact pyLowerChar_id_of c h

/-- The name normalization of the deployment scripts is idempotent. -/
theorem normalize_agent_name_idem (s : String) :
    normalize_agent_name (normalize_agent_name s) = normalize_agent_name s := by
  apply string_data_inj
  simp only [normalize_agent_name, pyLower, List.map_map]
  apply List.map_congr_left
  intro c _
  simp only [Function.comp_apply]
  by_cases h : pyLowerChar c = '_'
  · have hdash : pyLowerChar '-' = '-' := rfl
    simp [h, hdash]
  · simp [h, pyLowerChar_idem]

/-! ## Claim theorems -/

/-- C1 (counterexample): the claim that every policy mode proceeds under
the requested name when no resources exist fails on
`working_deployment.py`, which consults no discovery at all: in
force-recreate mode the deployment name is renamed even though nothing
exists, so the resulting name differs from the requested
`sbom_security_agent`. -/
theorem working_force_recreate_renames_without_discovery :
    working_agent_name "sbom_security_agent" false true ⟨2025, 10, 12, 9, 30, 0⟩ ≠
      "sbom_security_agent" := by
  decide

/-- C1 (amended): in `enhanced_deployment.py`, when discovery finds no
existing artifacts the resolution proceeds under the requested name for
every mode; in `working_deployment.py` the name selection ignores
discovery entirely — standard mode keeps the requested name, while
auto-update and force-recreate modes always rename to a timestamped name
even when no resources exist. -/
theorem conflict_resolution_with_empty_discovery (au fo : Bool) (n : String)
    (answers : List (String × String)) (d : DateTime) :
    handle_existing_artifacts [] au fo n answers = some n ∧
    working_agent_name n false false d = n ∧
    working_agent_name n true fo d ≠ n ∧
    working_agent_name n false true d ≠ n := by
  refine ⟨by simp [handle_existing_artifacts], rfl, ?_, ?_⟩
  · simpa [working_agent_name] using generate_unique_agent_name_ne n "update" d
  · simpa [working_agent_name] using generate_unique_agent_name_ne n "recreate" d

/-- C2: the behaviour of `validate_endpoint_url` on the three inputs the
spec fixes.  The empty string is rejected and a URL already carrying the
invocation path is unchanged, as claimed; but the scheme-less host input
is mapped to `https://abcd1234.svc.us-east-1.example.cominvocations` —
the code appends the bare string `invocations` without a slash whenever
the parsed path is empty, instead of the claimed
`https://abcd1234.svc.us-east-1.example.com/invocations`. -/
theorem validate_endpoint_url_spec_examples :
    validate_endpoint_url "" = .error "URL cannot be empty" ∧
    validate_endpoint_url "https://host/invocations" = .ok "https://host/invocations" ∧
    validate_endpoint_url "abcd1234.svc.us-east-1.example.com" =
      .ok "https://abcd1234.svc.us-east-1.example.cominvocations" :=
  ⟨rfl, rfl, rfl⟩

/-- C3: with existing resources and force-recreate mode, the generated
deployment name (base, underscore, mode, underscore, timestamp) always
differs from the requested name, and two names generated at valid clock
readings at least one second apart are distinct. -/
theorem force_recreate_unique_name_spec (n : String) (d1 d2 : DateTime)
    (h1 : d1.Valid) (h2 : d2.Valid)
    (hsep : d1.toSeconds + 1 ≤ d2.toSeconds) :
    generate_unique_agent_name n "recreate" d1 ≠ n ∧
    generate_unique_agent_name n "recreate" d1 ≠
      generate_unique_agent_name n "recreate" d2 := by
  refine ⟨generate_unique_agent_name_ne n "recreate" d1, ?_⟩
  apply generate_unique_agent_name_inj h1 h2
  intro he
  rw [he] at hsep
  omega

/-- C3 witness: two concrete clock readings one second apart. -/
theorem force_recreate_unique_name_spec_witness :
    DateTime.Valid ⟨2025, 10, 12, 9, 30, 0⟩ ∧
    DateTime.Valid ⟨2025, 10, 12, 9, 30, 1⟩ ∧
    DateTime.toSeconds ⟨2025, 10, 12, 9, 30, 0⟩ + 1 ≤
      DateTime.toSeconds ⟨2025, 10, 12, 9, 30, 1⟩ ∧
    (generate_unique_agent_name "sbom_security_agent" "recreate" ⟨2025, 10, 12, 9, 30, 0⟩ ≠
        "sbom_security_agent" ∧
     generate_unique_agent_name "sbom_security_agent" "recreate" ⟨2025, 10, 12, 9, 30, 0⟩ ≠
       generate_unique_agent_name "sbom_security_agent" "recreate" ⟨2025, 10, 12, 9, 30, 1⟩) :=
  ⟨by decide, by decide, by decide,
   force_recreate_unique_name_spec "sbom_security_agent" _ _ (by decide) (by decide) (by decide)⟩

/-- C4: dry-run cleanup issues no provider call at all (in particular no
delete call), its success and error counters partition the resource list,
and its partition coincides with what execute mode produces on a resource
set whose deletions all succeed. -/
theorem cleanup_dry_run_partition (rs : List CleanupResource)
    (h : ∀ r ∈ rs, r.deleteSucceeds = true) :
    (cleanup_resources rs true).events = [] ∧
    (cleanup_resources rs true).successCount + (cleanup_resources rs true).errorCount =
      rs.length ∧
    (cleanup_resources rs false).successCount = (cleanup_resources rs true).successCount ∧
    (cleanup_resources rs false).errorCount = (cleanup_resources rs true).errorCount := by
  have hd := cleanupGo_dry 0 rs
  have hs := cleanupGo_exec_success 0 rs
  have he := cleanupGo_exec_error 0 rs
  have hfil : rs.filter (fun r => r.deleteSucceeds) = rs := List.filter_eq_self.mpr h
  have hfil2 : rs.filter (fun r => !r.deleteSucceeds) = [] := by
    apply List.filter_eq_nil_iff.mpr
    intro r hr
    simp [h r hr]
  simp [cleanup_resources, hd, hs, he, hfil, hfil2]

/-- C4 witness: a two-element resource list with deletable resources. -/
theorem cleanup_dry_run_partition_witness :
    (∀ r ∈ [(⟨"ECR Repository", "agentcore-runtime-sbom-security-agent", false, true, true⟩ :
        CleanupResource),
      ⟨"IAM Role", "AgentCoreRuntimeRole-sbom_security_agent", true, true, true⟩],
        r.deleteSucceeds = true) ∧
    ((cleanup_resources [⟨"ECR Repository", "agentcore-runtime-sbom-security-agent",
        false, true, true⟩,
      ⟨"IAM Role", "AgentCoreRuntimeRole-sbom_security_agent", true, true, true⟩] true).events
        = [] ∧
     (cleanup_resources [⟨"ECR Repository", "agentcore-runtime-sbom-security-agent",
        false, true, true⟩,
      ⟨"IAM Role", "AgentCoreRuntimeRole-sbom_security_agent", true, true, true⟩]
        true).successCount +
       (cleanup_resources [⟨"ECR Repository", "agentcore-runtime-sbom-security-agent",
        false, true, true⟩,
      ⟨"IAM Role", "AgentCoreRuntimeRole-sbom_security_agent", true, true, true⟩]
        true).errorCount = 2 ∧
     (cleanup_resources [⟨"ECR Repository", "agentcore-runtime-sbom-security-agent",
        false, true, true⟩,
      ⟨"IAM Role", "AgentCoreRuntimeRole-sbom_security_agent", true, true, true⟩]
        false).successCount =
       (cleanup_resources [⟨"ECR Repository", "agentcore-runtime-sbom-security-agent",
        false, true, true⟩,
      ⟨"IAM Role", "AgentCoreRuntimeRole-sbom_security_agent", true, true, true⟩]
        true).successCount ∧
     (cleanup_resources [⟨"ECR Repository", "agentcore-runtime-sbom-security-agent",
        false, true, true⟩,
      ⟨"IAM Role", "AgentCoreRuntimeRole-sbom_security_agent", true, true, true⟩]
        false).errorCount =
       (cleanup_resources [⟨"ECR Repository", "agentcore-runtime-sbom-security-agent",
        false, true, true⟩,
      ⟨"IAM Role", "AgentCoreRuntimeRole-sbom_security_agent", true, true, true⟩]
        true).errorCount) :=
  ⟨by decide, cleanup_dry_run_partition _ (by decide)⟩

/-- C5: in execute mode, every resource marked as requiring policy cleanup
has its policy-cleanup call in the trace strictly before its delete call —
the delete call is present whatever the policy-cleanup outcome was — and
the error count depends only on the delete outcomes, so a policy-cleanup
failure is never fatal by itself. -/
theorem cleanup_role_policy_before_delete (rs : List CleanupResource) (i : Nat)
    (hi : i < rs.length)
    (hreq : (rs.get ⟨i, hi⟩).requiresPolicyCleanup = true) :
    ([CleanupEvent.policyCleanup i ((rs.get ⟨i, hi⟩).policyCleanupSucceeds),
      CleanupEvent.deleteCall i]).Sublist (cleanup_resources rs false).events ∧
    (cleanup_resources rs false).errorCount =
      (rs.filter (fun r => !r.deleteSucceeds)).length := by
  constructor
  · have := cleanupGo_policy_then_delete rs 0 i hi hreq
    simpa [cleanup_resources] using this
  · exact cleanupGo_exec_error 0 rs

/-- C5 witness: one role whose policy cleanup fails; its delete call is
still in the trace after the policy-cleanup attempt, and the error count
is zero because the delete itself succeeds. -/
theorem cleanup_role_policy_before_delete_witness :
    (0 : Nat) < ([(⟨"IAM Role", "AgentCoreRuntimeRole-sbom_security_agent",
        true, false, true⟩ : CleanupResource)]).length ∧
    (([CleanupEvent.policyCleanup 0 false, CleanupEvent.deleteCall 0]).Sublist
      (cleanup_resources [⟨"IAM Role", "AgentCoreRuntimeRole-sbom_security_agent",
        true, false, true⟩] false).events ∧
     (cleanup_resources [⟨"IAM Role", "AgentCoreRuntimeRole-sbom_security_agent",
        true, false, true⟩] false).errorCount =
       (([(⟨"IAM Role", "AgentCoreRuntimeRole-sbom_security_agent",
        true, false, true⟩ : CleanupResource)]).filter
          (fun r => !r.deleteSucceeds)).length) :=
  ⟨by decide,
   cleanup_role_policy_before_delete
     [⟨"IAM Role", "AgentCoreRuntimeRole-sbom_security_agent", true, false, true⟩]
     0 (by decide) (by decide)⟩

/-- C10: for a non-empty resource list, dry-run cleanup returns True —
the dry-run branch of the loop cannot fail, so the error count is zero
and every resource counts as a would-be success regardless of its delete
outcome. -/
theorem cleanup_dry_run_returns_true (rs : List CleanupResource) (h : rs ≠ []) :
    cleanup_resources_ret rs true = true ∧
    (cleanup_resources rs true).errorCount = 0 ∧
    (cleanup_resources rs true).successCount = rs.length := by
  have hd := cleanupGo_dry 0 rs
  simp [cleanup_resources_ret, cleanup_resources, hd]

/-- C10 witness: a resource whose real deletion would fail is still a
dry-run success. -/
theorem cleanup_dry_run_returns_true_witness :
    ([(⟨"Lambda Function", "agentcore-runtime-sbom-security-agent",
        false, true, false⟩ : CleanupResource)] ≠ []) ∧
    (cleanup_resources_ret [⟨"Lambda Function", "agentcore-runtime-sbom-security-agent",
        false, true, false⟩] true = true ∧
     (cleanup_resources [⟨"Lambda Function", "agentcore-runtime-sbom-security-agent",
        false, true, false⟩] true).errorCount = 0 ∧
     (cleanup_resources [⟨"Lambda Function", "agentcore-runtime-sbom-security-agent",
        false, true, false⟩] true).successCount = 1) :=
  ⟨by decide, cleanup_dry_run_returns_true _ (by decide)⟩

/-- C6 (counterexample): the two deployment-name spellings do not derive
the same resource name for the identity-role kind, whose derived name
uses the raw deployment name without normalization. -/
theorem derive_resource_name_role_differs :
    derive_resource_name "sbom_security_agent" .identityRole ≠
      derive_resource_name "sbom-security-agent" .identityRole := by
  decide

/-- C6 (amended): the derived resource name is a pure function of the
deployment name and kind; the normalization is idempotent; the two
spellings `sbom_security_agent` and `sbom-security-agent` derive the same
name for the normalized kinds (container registry and compute function)
but different names for the identity-role kind, which uses the raw
deployment name. -/
theorem derive_resource_name_normalization :
    (∀ s : String, normalize_agent_name (normalize_agent_name s) = normalize_agent_name s) ∧
    derive_resource_name "sbom_security_agent" .containerRegistry =
      derive_resource_name "sbom-security-agent" .containerRegistry ∧
    derive_resource_name "sbom_security_agent" .computeFunction =
      derive_resource_name "sbom-security-agent" .computeFunction ∧
    derive_resource_name "sbom_security_agent" .identityRole ≠
      derive_resource_name "sbom-security-agent" .identityRole :=
  ⟨normalize_agent_name_idem, by decide, by decide, by decide⟩

/-- C7 (counterexample): answering no to the confirmation prompt of the
cleanup utility is a user cancellation, yet the process exits with code 0,
not the claimed 1. -/
theorem cleanup_cancel_exits_zero :
    cleanup_deployment_main_exit .completes true
      [⟨"IAM Role", "AgentCoreRuntimeRole-sbom_security_agent", true, true, true⟩]
      "no" ≠ 1 := by
  decide

/-- C7 (amended): the deployment entry point exits 0 on success and 1 on
failure, keyboard interrupt or unexpected error; but the cleanup entry
point exits 0 on every non-exceptional run — including the cancelled
confirmation and runs whose deletions failed — and 1 only on a keyboard
interrupt or unexpected error; and the info entry point in interactive
mode exits 0 on a keyboard interrupt as well. -/
theorem cli_exit_codes :
    (∀ (e : Bool) (rs : List CleanupResource) (c : String),
      cleanup_deployment_main_exit .completes e rs c = 0) ∧
    (∀ (e : Bool) (rs : List CleanupResource) (c : String),
      cleanup_deployment_main_exit .keyboardInterrupt e rs c = 1) ∧
    (∀ (e : Bool) (rs : List CleanupResource) (c : String),
      cleanup_deployment_main_exit .raisesError e rs c = 1) ∧
    (∀ (se found saved : Bool) (run : PyRun),
      get_agent_info_main_exit true se found saved run = if found then 0 else 1) ∧
    (∀ (found saved : Bool) (run : PyRun),
      get_agent_info_main_exit false true found saved run =
        if found && saved then 0 else 1) ∧
    (∀ found saved : Bool, get_agent_info_main_exit false false found saved .completes = 0) ∧
    (∀ found saved : Bool,
      get_agent_info_main_exit false false found saved .keyboardInterrupt = 0) ∧
    (∀ found saved : Bool, get_agent_info_main_exit false false found saved .raisesError = 1) ∧
    (∀ (run : PyRun) (s : Bool), enhanced_deployment_main_exit true run s = 1) ∧
    (∀ s : Bool, enhanced_deployment_main_exit false .completes s = if s then 0 else 1) ∧
    (∀ s : Bool, enhanced_deployment_main_exit false .keyboardInterrupt s = 1) ∧
    (∀ s : Bool, enhanced_deployment_main_exit false .raisesError s = 1) := by
  refine ⟨?_, ?_, ?_, ?_, ?_, ?_, ?_, ?_, ?_, ?_, ?_, ?_⟩
  · intro e rs c
    simp [cleanup_deployment_main_exit]
  · intro e rs c
    rfl
  · intro e rs c
    rfl
  · intro se found saved run
    simp [get_agent_info_main_exit]
  · intro found saved run
    cases found <;> cases saved <;> simp [get_agent_info_main_exit]
  · intro found saved
    rfl
  · intro found saved
    rfl
  · intro found saved
    rfl
  · intro run s
    rfl
  · intro s
    simp [enhanced_deployment_main_exit]
  · intro s
    rfl
  · intro s
    rfl

/-- C9: when the create call for the singleton OAuth provider fails with a
message containing `already exists` (case-insensitively), all three
setup variants return True, for every policy mode. -/
theorem oauth_provider_already_exists_success (provs : List String) (msg : String)
    (au fo : Bool) (ans : String)
    (hp : provs.contains "github-provider" = false)
    (hmsg : subB "already exists".data (pyLower msg).data = true) :
    dc_setup_github_oauth_provider true (some provs) (some msg) = true ∧
    enh_setup_github_oauth_provider true (some provs) au fo ans (some msg) = true ∧
    simple_setup_github_oauth_provider true (some provs) (some msg) = true := by
  have hp' : providerListed (some provs) = false := by
    simpa [providerListed] using hp
  refine ⟨?_, ?_, ?_⟩
  · simp [dc_setup_github_oauth_provider, hp', dcCreateErrOk, hmsg]
  · simp [enh_setup_github_oauth_provider, hp', enhCreateErrOk, hmsg]
  · simp [simple_setup_github_oauth_provider, hp', enhCreateErrOk, hmsg]

/-- C9 witness: a concrete already-exists error message in standard mode
with no provider listed. -/
theorem oauth_provider_already_exists_success_witness :
    (([] : List String).contains "github-provider" = false) ∧
    subB "already exists".data
      (pyLower "An error occurred: Provider with name github-provider Already Exists").data
        = true ∧
    (dc_setup_github_oauth_provider true (some [])
        (some "An error occurred: Provider with name github-provider Already Exists") = true ∧
     enh_setup_github_oauth_provider true (some []) false false "n"
        (some "An error occurred: Provider with name github-provider Already Exists") = true ∧
     simple_setup_github_oauth_provider true (some [])
        (some "An error occurred: Provider with name github-provider Already Exists") = true) :=
  ⟨by decide, by decide,
   oauth_provider_already_exists_success [] _ false false "n" (by decide) (by decide)⟩

/-- C8 (counterexample): the append-mode writer of
`simple_enhanced_deployment.py` adds a second line for the recognized key
`AGENT_NAME` to a document that already holds one, so after its write the
document does not hold at most one line per recognized key. -/
theorem simple_save_duplicates_agent_name :
    ¬ (countKeyLines
        (simple_save_agent_name ["AGENT_NAME=sbom_security_agent"]
          "sbom_security_agent_update_20251012_093000")
        "AGENT_NAME=" ≤ 1) := by
  decide

/-- C8 (amended): `save_agent_info_to_env` does replace prior lines — after
its write the document holds at most one line per recognized key — but the
conflict-resolution writers of `working_deployment.py` and
`simple_enhanced_deployment.py` append their `DEPLOYED_AGENT_NAME` and
`AGENT_NAME` lines without removing prior ones, so each of their writes
increases the number of lines for that key by one. -/
theorem env_writers_key_lines (env : List String) (a : AgentInfo)
    (c : Option CognitoInfo) (k : String) (hk : k ∈ envKeys7) (n1 n2 : String) :
    countKeyLines (save_agent_info_to_env env a c) k ≤ 1 ∧
    countKeyLines (working_save_deployed_name env n1) "DEPLOYED_AGENT_NAME=" =
      countKeyLines env "DEPLOYED_AGENT_NAME=" + 1 ∧
    countKeyLines (simple_save_agent_name env n2) "AGENT_NAME=" =
      countKeyLines env "AGENT_NAME=" + 1 := by
  refine ⟨?_, ?_, ?_⟩
  · unfold save_agent_info_to_env
    rw [countKeyLines_append, countKeyLines_filtered_zero env k hk]
    simp only [Nat.zero_add]
    have hpair : ∀ x ∈ envKeys7, ∀ y ∈ envKeys7,
        x = y ∨ (swB x.data y.data = false ∧ swB y.data x.data = false) := by
      decide
    cases c with
    | none =>
      have hb := countKeyLines_keyed_le_one k
        [("AGENT_ENDPOINT=", a.endpoint_url), ("AGENT_ID=", a.agent_id),
         ("AGENT_NAME=", a.agent_name), ("AWS_REGION=", a.region)]
        (by
          show (["AGENT_ENDPOINT=", "AGENT_ID=", "AGENT_NAME=",
            "AWS_REGION="] : List String).Nodup
          decide)
        (by
          intro p hp
          have hp1 : p.1 ∈ envKeys7 := by
            simp only [List.mem_cons, List.not_mem_nil, or_false] at hp
            rcases hp with rfl | rfl | rfl | rfl <;> simp [envKeys7]
          rcases hpair p.1 hp1 k hk with he | hm
          · exact Or.inl he
          · exact Or.inr ⟨hm.2, hm.1⟩)
      simpa using hb
    | some ci =>
      have hb := countKeyLines_keyed_le_one k
        [("AGENT_ENDPOINT=", a.endpoint_url), ("AGENT_ID=", a.agent_id),
         ("AGENT_NAME=", a.agent_name), ("AWS_REGION=", a.region),
         ("COGNITO_CLIENT_ID=", ci.client_id), ("COGNITO_POOL_ID=", ci.pool_id),
         ("COGNITO_DISCOVERY_URL=", ci.discovery_url)]
        (by
          show (["AGENT_ENDPOINT=", "AGENT_ID=", "AGENT_NAME=", "AWS_REGION=",
            "COGNITO_CLIENT_ID=", "COGNITO_POOL_ID=",
            "COGNITO_DISCOVERY_URL="] : List String).Nodup
          decide)
        (by
          intro p hp
          have hp1 : p.1 ∈ envKeys7 := by
            simp only [List.mem_cons, List.not_mem_nil, or_false] at hp
            rcases hp with rfl | rfl | rfl | rfl | rfl | rfl | rfl <;> simp [envKeys7]
          rcases hpair p.1 hp1 k hk with he | hm
          · exact Or.inl he
          · exact Or.inr ⟨hm.2, hm.1⟩)
      simpa using hb
  · rw [working_save_deployed_name, countKeyLines_append]
    have h1 : swB "DEPLOYED_AGENT_NAME=".data ("" : String).data = false := by decide
    have h2 : swB "DEPLOYED_AGENT_NAME=".data
        ("# Auto-generated agent name from conflict resolution" : String).data = false := by
      decide
    have h3 : swB "DEPLOYED_AGENT_NAME=".data ("DEPLOYED_AGENT_NAME=" ++ n1).data = true := by
      rw [String.data_append]
      exact swB_self_append _ _
    have hc : countKeyLines ["", "# Auto-generated agent name from conflict resolution",
        "DEPLOYED_AGENT_NAME=" ++ n1] "DEPLOYED_AGENT_NAME=" = 1 := by
      simp at h3
      simp [countKeyLines, List.filter_cons, h1, h2, h3]
    rw [hc]
  · rw [simple_save_agent_name, countKeyLines_append]
    have h1 : swB "AGENT_NAME=".data ("" : String).data = false := by decide
    have h2 : swB "AGENT_NAME=".data
        ("# Auto-generated agent name from conflict resolution" : String).data = false := by
      decide
    have h3 : swB "AGENT_NAME=".data ("AGENT_NAME=" ++ n2).data = true := by
      rw [String.data_append]
      exact swB_self_append _ _
    have hc : countKeyLines ["", "# Auto-generated agent name from conflict resolution",
        "AGENT_NAME=" ++ n2] "AGENT_NAME=" = 1 := by
      simp at h3
      simp [countKeyLines, List.filter_cons, h1, h2, h3]
    rw [hc]

/-- C8 witness: a concrete document, agent record and key. -/
theorem env_writers_key_lines_witness :
    ("AGENT_NAME=" ∈ envKeys7) ∧
    (countKeyLines
        (save_agent_info_to_env ["AGENT_NAME=old", "OTHER=1"]
          ⟨"https://e/invocations", "abcd1234", "sbom-security-agent", "us-east-1"⟩ none)
        "AGENT_NAME=" ≤ 1 ∧
     countKeyLines (working_save_deployed_name ["AGENT_NAME=old", "OTHER=1"] "x")
        "DEPLOYED_AGENT_NAME=" =
       countKeyLines ["AGENT_NAME=old", "OTHER=1"] "DEPLOYED_AGENT_NAME=" + 1 ∧
     countKeyLines (simple_save_agent_name ["AGENT_NAME=old", "OTHER=1"] "y") "AGENT_NAME=" =
       countKeyLines ["AGENT_NAME=old", "OTHER=1"] "AGENT_NAME=" + 1) :=
  ⟨by decide,
   env_writers_key_lines ["AGENT_NAME=old", "OTHER=1"]
     ⟨"https://e/invocations", "abcd1234", "sbom-security-agent", "us-east-1"⟩ none
     "AGENT_NAME=" (by decide) "x" "y"⟩

end SbomDeploy
